import Mathlib

/-!
Shallow embedding of the Quote-App source (src/app3.py): the web-data
extractor (`WebDataExtractor`) and the quote generator
(`QuoteGenerator.generate_quote_pdf_in_memory` together with the Flask
routes), with machine floats modelled as exact rationals and the
collaborator boundaries (HTTP transport, BeautifulSoup lookup, filesystem
persistence, urljoin) passed in as function parameters.
-/

/-- A character kept by the price cleaner: `re.sub(r'[^\d.]', '', s)`
keeps exactly the digits and the dot. -/
def isDigitOrDot (c : Char) : Bool := c.isDigit || c == '.'

/-- Value of a digit string read left to right (used by float parsing). -/
def digitsToNat (l : List Char) : Nat :=
  l.foldl (fun acc c => acc * 10 + (c.toNat - 48)) 0

/-- Python `float(s)` restricted to plain decimal tokens made of digits and
at most one dot (the only shapes the program feeds it after cleaning):
succeeds iff every character is a digit or dot, there is at most one dot
and at least one digit; `ValueError` is modelled as `none`. -/
def parseDecimal (l : List Char) : Option ℚ :=
  if l.all isDigitOrDot && decide (l.count '.' ≤ 1) && l.any Char.isDigit then
    let ip := l.takeWhile (fun c => !(c == '.'))
    let fp := (l.dropWhile (fun c => !(c == '.'))).drop 1
    some ((digitsToNat ip : ℚ) + (digitsToNat fp : ℚ) / (10 : ℚ) ^ fp.length)
  else none

/-- Python `str.strip()` on a character list: drop whitespace at both ends. -/
def stripChars (l : List Char) : List Char :=
  ((l.dropWhile Char.isWhitespace).reverse.dropWhile Char.isWhitespace).reverse

/-- Python `float(s)` on a raw form-field token: strip surrounding
whitespace, allow an optional sign, then a plain decimal; a token that
`float` would reject (raising `ValueError`) is `none`.  Exotic float
syntax (exponents, `inf`, `nan`) is outside the shapes this program
receives and is not modelled. -/
def pyFloatChars (l : List Char) : Option ℚ :=
  match stripChars l with
  | '-' :: rest => (parseDecimal rest).map (fun q => -q)
  | '+' :: rest => parseDecimal rest
  | rest => parseDecimal rest

/-- Python `float` on a Lean string, see `pyFloatChars`. -/
def pyFloatStr (s : String) : Option ℚ := pyFloatChars s.toList

/-- The cleaning step of the price normalizer, app3.py line 66:
`cleaned_price_str = re.sub(r'[^\d.]', '', price_str)`. -/
def cleanedPrice (l : List Char) : List Char := l.filter isDigitOrDot

/-- The numeric normalizer applied to one candidate price token,
app3.py lines 66-71: clean the token, and when the cleaned string is
non-empty try `float` on it; an empty cleaned string or a `ValueError`
leaves the candidate without a value (the cascade then continues). -/
def normalizePriceChars (l : List Char) : Option ℚ :=
  let cleaned := cleanedPrice l
  if cleaned.isEmpty then none else parseDecimal cleaned

/-- The numeric normalizer on a Lean string, see `normalizePriceChars`. -/
def normalizePrice (s : String) : Option ℚ := normalizePriceChars s.toList

/-- Python `s.startswith(pre)` as a character-list prefix test. -/
def pyStartsWith (s pre : String) : Bool := pre.toList.isPrefixOf s.toList

/-- Contiguous-substring test, modelling Python's `needle in hay`. -/
def hasSubstr (hay needle : List Char) : Bool :=
  match hay with
  | [] => needle.isEmpty
  | _ :: rest => needle.isPrefixOf hay || hasSubstr rest needle

/-- A parsed HTML element as the code observes it through BeautifulSoup:
its attribute map (`el.get`) and its stripped text (`el.get_text(strip=True)`). -/
structure Element where
  attrs : List (String × String)
  text : String
deriving DecidableEq, Repr

/-- Model of `el.get(name)`: the attribute's value, or `None` when absent. -/
def Element.getAttr (el : Element) (name : String) : Option String :=
  el.attrs.lookup name

/-- Python `a or b` on two `el.get` results, where `None` and the empty
string are both falsy. -/
def pyAttrOr (a b : Option String) : Option String :=
  match a with
  | some s => if s = "" then b else some s
  | none => b

/-- The parsed document as the code observes it through BeautifulSoup.
`selectOne` is the `soup.select_one` lookup oracle; the remaining fields
are the specific `soup.find` lookups the code performs.  `imgTags` lists
every `img` element of the document in order: it is part of what the
document offers, whether or not the code ever asks for it. -/
structure Soup where
  selectOne : String → Option Element
  imgTags : List Element
  metaOgTitle : Option Element
  metaOgDescription : Option Element
  metaNameDescription : Option Element
  titleTag : Option Element

/-- Title selector list, app3.py line 57. -/
def titleSelectors : List String :=
  ["h1[itemprop=\"name\"]", "#productTitle", ".ui-pdp-title", "h1"]

/-- Price selector list, app3.py line 60. -/
def priceSelectors : List String :=
  ["span[itemprop=\"price\"]", "span.a-offscreen",
   ".andes-money-amount__fraction", ".a-price-whole"]

/-- The title cascade, app3.py line 58: the stripped text of the first
selector that matches an element (even when that text is empty). -/
def titleCascade (lookup : String → Option Element) : List String → Option String
  | [] => none
  | sel :: rest =>
    match lookup sel with
    | some el => some el.text
    | none => titleCascade lookup rest

/-- The candidate price token of a matched element, app3.py line 65:
`el.get('content') or el.get_text(strip=True)` (Python `or`: an absent or
empty `content` attribute falls back to the text). -/
def elementPriceStr (el : Element) : String :=
  match el.getAttr "content" with
  | some c => if c = "" then el.text else c
  | none => el.text

/-- The price cascade, app3.py lines 61-71: at each selector, when an
element matches, normalize its candidate token; a successful `float`
breaks the loop with that value, an empty cleaned string or a
`ValueError` continues with the next selector. -/
def priceCascade (lookup : String → Option Element) : List String → Option ℚ
  | [] => none
  | sel :: rest =>
    match lookup sel with
    | none => priceCascade lookup rest
    | some el =>
      match normalizePrice (elementPriceStr el) with
      | some p => some p
      | none => priceCascade lookup rest

/-- The title/price pair returned by `_extract_product_details`. -/
structure ProductDetails where
  title : String
  price : ℚ
deriving DecidableEq, Repr

/-- The anti-bot marker test, app3.py line 73: `"robot" in title.lower()`. -/
def containsRobot (t : String) : Bool :=
  hasSubstr (t.toList.map Char.toLower) "robot".toList

/-- Model of `WebDataExtractor._extract_product_details`, app3.py lines 55-77: run
the title and price cascades; return `None` when the (truthy) title
contains the anti-bot marker, a `ProductDetails` when a truthy title and
a price are both present, and `None` otherwise.  (Python truthiness: an
empty title string fails both `if title ...` tests.) -/
def extractProductDetails (soup : Soup) : Option ProductDetails :=
  let title := titleCascade soup.selectOne titleSelectors
  let price := priceCascade soup.selectOne priceSelectors
  match title with
  | none => none
  | some t =>
    if t ≠ "" && containsRobot t then none
    else
      match price with
      | some p => if t ≠ "" then some ⟨t, p⟩ else none
      | none => none

/-- The pair returned by `_download_image`: `url_for` web path and
filesystem path of the persisted image. -/
structure ImageInfo where
  web_path : String
  filesystem_path : String
deriving DecidableEq, Repr

/-- An image HTTP response as `_download_image` observes it:
`headers.get('Content-Type', '')` (the default `''` already applied). -/
structure ImgResponse where
  contentType : String
deriving DecidableEq, Repr

/-- Model of `WebDataExtractor._download_image`, app3.py lines 79-95.  `get`
models `self.session.get(..., timeout=15)` plus `raise_for_status`
(`.error` = exception raised); `persist` models lines 84-92, the storage
collaborator step (unique-filename generation and the chunked file
write, `.error` = filesystem exception).  The enclosing `try/except`
turns any such failure into `None`; a response whose content type does
not contain `"image"` also yields `None`. -/
def downloadImage (get : String → Except String ImgResponse)
    (persist : String → Except String ImageInfo) (imgUrl : String) :
    Option ImageInfo :=
  match get imgUrl with
  | .error _ => none
  | .ok resp =>
    if hasSubstr resp.contentType.toList "image".toList then
      match persist imgUrl with
      | .error _ => none
      | .ok info => some info
    else none

/-- The primary image selector list, app3.py line 98. -/
def mainImgSelectors : List String :=
  ["div.w_V_x_ img", "#landingImage", "#imgTagWrapperId img",
   "meta[property=\"og:image\"]"]

/-- The selector loop of `_extract_images`, app3.py lines 99-107.
`join` models `urljoin(base_url, src)`; `dl` is the download sub-step.
At each selector: when an element matches, its source is
`get('content') or get('data-src') or get('src')`; a truthy source that
is not inline-encoded (`data:image`) is resolved and downloaded, and a
successful download returns that single image; every other outcome
falls through to the next selector. -/
def extractImagesAux (join : String → String → String)
    (dl : String → Option ImageInfo) (soup : Soup) (baseUrl : String) :
    List String → List ImageInfo
  | [] => []
  | sel :: rest =>
    match soup.selectOne sel with
    | none => extractImagesAux join dl soup baseUrl rest
    | some tag =>
      match pyAttrOr (tag.getAttr "content")
          (pyAttrOr (tag.getAttr "data-src") (tag.getAttr "src")) with
      | none => extractImagesAux join dl soup baseUrl rest
      | some src =>
        if src = "" || pyStartsWith src "data:image" then
          extractImagesAux join dl soup baseUrl rest
        else
          match dl (join baseUrl src) with
          | some info => [info]
          | none => extractImagesAux join dl soup baseUrl rest

/-- Model of `WebDataExtractor._extract_images`, app3.py lines 97-107: try the
four primary selectors in order; if none of them produces a downloaded
image, return the empty list. -/
def extractImages (join : String → String → String)
    (dl : String → Option ImageInfo) (soup : Soup) (baseUrl : String) :
    List ImageInfo :=
  extractImagesAux join dl soup baseUrl mainImgSelectors

/-- Model of `WebDataExtractor._extract_title`, app3.py lines 137-140: the
`og:title` meta content (default `'Untitled'`, then `.strip()`), else
the `title` tag's stripped text, else `'Untitled'`. -/
def extractTitleMeta (soup : Soup) : String :=
  match soup.metaOgTitle with
  | some el => String.mk (stripChars ((el.getAttr "content").getD "Untitled").toList)
  | none =>
    match soup.titleTag with
    | some el => el.text
    | none => "Untitled"

/-- Model of `WebDataExtractor._extract_description`, app3.py lines 142-146: the
`og:description` meta content, else the `name="description"` meta
content, else `'No description.'` (defaults and `.strip()` as in the
code). -/
def extractDescription (soup : Soup) : String :=
  match soup.metaOgDescription with
  | some el => String.mk (stripChars ((el.getAttr "content").getD "No description.").toList)
  | none =>
    match soup.metaNameDescription with
    | some el => String.mk (stripChars ((el.getAttr "content").getD "No description.").toList)
    | none => "No description."

/-- Outcome of the fetch-and-parse step of `extract_web_data`:
`requests.get(scraper_url, params=payload, timeout=60)` followed by
`raise_for_status()` and `BeautifulSoup(response.content, 'lxml')`.
`netErr` is a raised `requests.exceptions.RequestException` (timeout,
DNS, non-2xx). -/
inductive FetchResult where
  | ok (soup : Soup)
  | netErr (msg : String)

/-- The JSON-shaped result of `extract_web_data`: either the success
payload of app3.py lines 123-130, or the error payload with
`status='error'`. -/
inductive ExtractOutcome where
  | ok (url title description : String) (images : List ImageInfo)
      (product_details : Option ProductDetails)
  | err (msg : String)

/-- Model of `WebDataExtractor.extract_web_data`, app3.py lines 109-135.  `fetch`
is the transport-and-parse collaborator, invoked with the URL and the
timeout of 60 seconds used at line 118.  A missing API key returns the
configuration error; a transport failure returns the network-classified
error; otherwise the success payload is assembled (product details and
images may well be absent — that is still a success). -/
def extractWebData (fetch : String → Nat → FetchResult)
    (join : String → String → String) (dl : String → Option ImageInfo)
    (apiKey : Option String) (url : String) : ExtractOutcome :=
  match apiKey with
  | none => .err "ScraperAPI key not configured on the server."
  | some _ =>
    match fetch url 60 with
    | .netErr e => .err ("Network error or failed request to ScraperAPI: " ++ e)
    | .ok soup =>
      .ok url (extractTitleMeta soup) (extractDescription soup)
        (extractImages join dl soup url) (extractProductDetails soup)

/-- The URL normalization of `extract_data_route`, app3.py line 502:
prepend `http://` exactly when the URL starts with neither `http://`
nor `https://`. -/
def normalizeUrl (url : String) : String :=
  if pyStartsWith url "http://" || pyStartsWith url "https://" then url
  else "http://" ++ url

/-- Model of `extract_data_route`, app3.py lines 498-504: a missing or empty
`url` form field is answered with a 400 error (`none` here); otherwise
the normalized URL is handed to `extract_web_data`. -/
def extractDataRoute (fetch : String → Nat → FetchResult)
    (join : String → String → String) (dl : String → Option ImageInfo)
    (apiKey : Option String) (urlField : Option String) :
    Option ExtractOutcome :=
  match urlField with
  | none => none
  | some url =>
    if url = "" then none
    else some (extractWebData fetch join dl apiKey (normalizeUrl url))

/-- One entry of the `items` JSON array posted to `/generate-quote`: the
numeric fields are the raw form strings, `none` modelling an absent key
(`item.get(key, default)` then takes the default). -/
structure QuoteItemData where
  description : String
  quantity : Option String
  price : Option String
  image_filesystem_path : Option String
deriving DecidableEq, Repr

/-- The quote request as `generate_quote_pdf_in_memory` reads it: the
items list plus the `discount` and `tax_rate` form fields (again `none`
= key absent). -/
structure QuoteData where
  items : List QuoteItemData
  discount : Option String
  tax_rate : Option String
deriving DecidableEq, Repr

/-- Model of `float(item.get('quantity', 1))`, app3.py line 187: the default 1
when the key is absent, otherwise `float` on the supplied text (`none`
= `ValueError` raised). -/
def itemQuantityVal (it : QuoteItemData) : Option ℚ :=
  match it.quantity with
  | none => some 1
  | some s => pyFloatStr s

/-- Model of `float(item.get('price', 0))`, app3.py line 188: the default 0 when
the key is absent, otherwise `float` on the supplied text. -/
def itemPriceVal (it : QuoteItemData) : Option ℚ :=
  match it.price with
  | none => some 0
  | some s => pyFloatStr s

/-- Model of `float(quote_data.get('discount', 0))`, app3.py line 219. -/
def discountVal (qd : QuoteData) : Option ℚ :=
  match qd.discount with
  | none => some 0
  | some s => pyFloatStr s

/-- Model of `float(quote_data.get('tax_rate', 7))`, app3.py line 220 (the value
before the division by 100). -/
def taxRateVal (qd : QuoteData) : Option ℚ :=
  match qd.tax_rate with
  | none => some 7
  | some s => pyFloatStr s

/-- The item loop of app3.py lines 185-190: starting from `subtotal = 0`,
each item adds `quantity * price`; a `ValueError` on any item aborts the
whole build (`none`). -/
def subtotalAux (acc : ℚ) : List QuoteItemData → Option ℚ
  | [] => some acc
  | it :: rest =>
    match itemQuantityVal it, itemPriceVal it with
    | some q, some p => subtotalAux (acc + q * p) rest
    | _, _ => none

/-- The line total of one item, `quantity * price` (app3.py line 189),
`none` when either field fails to parse. -/
def itemLineTotal (it : QuoteItemData) : Option ℚ :=
  match itemQuantityVal it, itemPriceVal it with
  | some q, some p => some (q * p)
  | _, _ => none

/-- The totals block of the rendered quote, app3.py lines 221-223. -/
structure QuoteTotals where
  subtotal : ℚ
  subtotal_after_discount : ℚ
  tax_amount : ℚ
  grand_total : ℚ
deriving DecidableEq, Repr

/-- Observable outcome of `generate_quote_pdf_in_memory` as surfaced by
`generate_quote_route`: `ok totals` is a rendered PDF (whose totals
block is present exactly when the items list is non-empty), `error` is a
raised exception re-raised at line 241 and answered with a 500 JSON
error at lines 549-551. -/
inductive QuoteOutcome where
  | ok (totals : Option QuoteTotals)
  | error
deriving DecidableEq, Repr

/-- The totals computation of `QuoteGenerator.generate_quote_pdf_in_memory`,
app3.py lines 182-231: when items are present, accumulate the subtotal
(line 185-190), parse discount and tax rate (lines 219-220, `tax_rate`
divided by 100), and derive `subtotal_after_discount`, `tax_amount` and
`grand_total` (lines 221-223); any `float` failure raises and the route
answers with an error. -/
def generateQuote (qd : QuoteData) : QuoteOutcome :=
  if qd.items.isEmpty then .ok none
  else
    match subtotalAux 0 qd.items with
    | none => .error
    | some subtotal =>
      match discountVal qd, taxRateVal qd with
      | some discount, some taxPercent =>
        let tax_rate := taxPercent / 100
        let subtotal_after_discount := subtotal - discount
        let tax_amount := subtotal_after_discount * tax_rate
        let grand_total := subtotal_after_discount + tax_amount
        .ok (some ⟨subtotal, subtotal_after_discount, tax_amount, grand_total⟩)
      | _, _ => .error

/-! ## Helper lemmas -/

theorem cleanedPrice_filter_ne_comma (l : List Char) :
    cleanedPrice (l.filter (fun c => !(c == ','))) = cleanedPrice l := by
  unfold cleanedPrice
  rw [List.filter_filter]
  apply List.filter_congr
  intro c _
  cases h : c == ',' with
  | true =>
    have hc : c = ',' := eq_of_beq h
    subst hc
    decide
  | false => simp [h]

theorem subtotalAux_of_map (items : List QuoteItemData) :
    ∀ (lts : List ℚ) (acc : ℚ), items.map itemLineTotal = lts.map some →
      subtotalAux acc items = some (acc + lts.sum) := by
  induction items with
  | nil =>
    intro lts acc h
    cases lts with
    | nil => simp [subtotalAux]
    | cons a l => simp at h
  | cons it rest ih =>
    intro lts acc h
    cases lts with
    | nil => simp at h
    | cons lt0 ltl =>
      simp only [List.map_cons, List.cons.injEq] at h
      obtain ⟨h1, h2⟩ := h
      unfold itemLineTotal at h1
      cases hq : itemQuantityVal it with
      | none => rw [hq] at h1; simp at h1
      | some q =>
        cases hp : itemPriceVal it with
        | none => rw [hq, hp] at h1; simp at h1
        | some p =>
          rw [hq, hp] at h1
          simp only [Option.some.injEq] at h1
          simp only [subtotalAux, hq, hp]
          rw [ih ltl (acc + q * p) h2]
          congr 1
          rw [h1]
          simp [List.sum_cons]
          ring

theorem subtotalAux_none_of_bad (items : List QuoteItemData)
    (hbad : ∃ it ∈ items, itemLineTotal it = none) :
    ∀ acc, subtotalAux acc items = none := by
  induction items with
  | nil => simp at hbad
  | cons it rest ih =>
    intro acc
    obtain ⟨x, hx, hlt⟩ := hbad
    cases hq : itemQuantityVal it with
    | none => simp only [subtotalAux, hq]
    | some q =>
      cases hp : itemPriceVal it with
      | none => simp only [subtotalAux, hq, hp]
      | some p =>
        simp only [subtotalAux, hq, hp]
        rcases List.mem_cons.mp hx with hx1 | hx2
        · subst hx1
          unfold itemLineTotal at hlt
          rw [hq, hp] at hlt
          simp at hlt
        · exact ih ⟨x, hx2, hlt⟩ (acc + q * p)

theorem extractImagesAux_nil_of_none (join : String → String → String)
    (dl : String → Option ImageInfo) (soup : Soup) (base : String) :
    ∀ sels : List String, (∀ sel ∈ sels, soup.selectOne sel = none) →
      extractImagesAux join dl soup base sels = [] := by
  intro sels
  induction sels with
  | nil => intro _; rfl
  | cons sel rest ih =>
    intro h
    simp only [extractImagesAux, h sel (List.mem_cons_self sel rest)]
    exact ih (fun s hs => h s (List.mem_cons_of_mem sel hs))

theorem extractImagesAux_length_le_one (join : String → String → String)
    (dl : String → Option ImageInfo) (soup : Soup) (base : String) :
    ∀ sels : List String, (extractImagesAux join dl soup base sels).length ≤ 1 := by
  intro sels
  induction sels with
  | nil => simp [extractImagesAux]
  | cons sel rest ih =>
    cases h : soup.selectOne sel with
    | none => simpa only [extractImagesAux, h] using ih
    | some tag =>
      cases h2 : pyAttrOr (tag.getAttr "content")
          (pyAttrOr (tag.getAttr "data-src") (tag.getAttr "src")) with
      | none => simpa only [extractImagesAux, h, h2] using ih
      | some src =>
        cases hs : (decide (src = "") || pyStartsWith src "data:image") with
        | true => simpa only [extractImagesAux, h, h2, hs, if_true] using ih
        | false =>
          cases h3 : dl (join base src) with
          | some info => simp [extractImagesAux, h, h2, hs, h3]
          | none => simpa only [extractImagesAux, h, h2, hs, h3, if_false] using ih

theorem extractImagesAux_imgTags_irrelevant (join : String → String → String)
    (dl : String → Option ImageInfo) (soup : Soup) (base : String) (l : List Element) :
    ∀ sels : List String,
      extractImagesAux join dl
        ⟨soup.selectOne, l, soup.metaOgTitle, soup.metaOgDescription,
          soup.metaNameDescription, soup.titleTag⟩ base sels =
      extractImagesAux join dl soup base sels := by
  intro sels
  induction sels with
  | nil => rfl
  | cons sel rest ih =>
    cases h : soup.selectOne sel with
    | none => simp only [extractImagesAux, h]; exact ih
    | some tag =>
      cases h2 : pyAttrOr (tag.getAttr "content")
          (pyAttrOr (tag.getAttr "data-src") (tag.getAttr "src")) with
      | none => simp only [extractImagesAux, h, h2]; exact ih
      | some src =>
        cases hs : (decide (src = "") || pyStartsWith src "data:image") with
        | true => simp only [extractImagesAux, h, h2, hs, if_true]; exact ih
        | false =>
          cases h3 : dl (join base src) with
          | some info => simp [extractImagesAux, h, h2, hs, h3]
          | none => simp only [extractImagesAux, h, h2, hs, h3, if_false]; exact ih

theorem extractImages_nil_of_dl_none (join : String → String → String)
    (dl : String → Option ImageInfo) (soup : Soup) (base : String)
    (hdl : ∀ v, dl v = none) : extractImages join dl soup base = [] := by
  unfold extractImages
  generalize mainImgSelectors = sels
  induction sels with
  | nil => rfl
  | cons sel rest ih =>
    cases h : soup.selectOne sel with
    | none => simp only [extractImagesAux, h]; exact ih
    | some tag =>
      cases h2 : pyAttrOr (tag.getAttr "content")
          (pyAttrOr (tag.getAttr "data-src") (tag.getAttr "src")) with
      | none => simp only [extractImagesAux, h, h2]; exact ih
      | some src =>
        cases hs : (decide (src = "") || pyStartsWith src "data:image") with
        | true => simp only [extractImagesAux, h, h2, hs, if_true]; exact ih
        | false =>
          simp only [extractImagesAux, h, h2, hs, if_false, hdl (join base src)]
          exact ih

/-! ## Claim theorems -/

/-- C1: for every quote request whose items parse to line totals
`lts` (each `qi * pi`), with discount `d` and tax-rate percent `t`, the
document builder computes `subtotal = lts.sum`,
`discountedSubtotal = subtotal - d`, `taxAmount = discountedSubtotal * t/100`
and `grandTotal = discountedSubtotal + taxAmount`.  The witness instantiates
the spec's concrete example (items (2, 10.00) and (1, 5.00), discount 3.00,
tax 7%) yielding 25 / 22 / 1.54 / 23.54. -/
theorem c1_quote_totals (qd : QuoteData) (lts : List ℚ) (d t : ℚ)
    (hmap : qd.items.map itemLineTotal = lts.map some)
    (hne : qd.items ≠ [])
    (hd : discountVal qd = some d) (ht : taxRateVal qd = some t) :
    generateQuote qd = QuoteOutcome.ok (some ⟨lts.sum, lts.sum - d,
      (lts.sum - d) * (t / 100), (lts.sum - d) + (lts.sum - d) * (t / 100)⟩) := by
  unfold generateQuote
  rw [subtotalAux_of_map qd.items lts 0 hmap]
  have hie : qd.items.isEmpty = false := by
    cases h : qd.items with
    | nil => exact absurd h hne
    | cons a l => rfl
  simp [hie, hd, ht]

/-- C1 witness: the Line Item Pricer example of the spec. -/
theorem c1_quote_totals_witness :
    generateQuote ⟨[⟨"Item A", some "2", some "10.00", none⟩,
        ⟨"Item B", some "1", some "5.00", none⟩], some "3.00", some "7"⟩ =
      QuoteOutcome.ok (some ⟨25, 22, 154 / 100, 2354 / 100⟩) := by
  have h := c1_quote_totals
    ⟨[⟨"Item A", some "2", some "10.00", none⟩,
      ⟨"Item B", some "1", some "5.00", none⟩], some "3.00", some "7"⟩
    [20, 5] 3 7
    (by
      simp +decide [itemLineTotal, itemQuantityVal, itemPriceVal, pyFloatStr,
        pyFloatChars, stripChars, parseDecimal, digitsToNat]
      norm_num)
    (by simp)
    (by simp +decide [discountVal, pyFloatStr, pyFloatChars, stripChars,
      parseDecimal, digitsToNat])
    (by simp +decide [taxRateVal, pyFloatStr, pyFloatChars, stripChars,
      parseDecimal, digitsToNat])
  rw [h]
  norm_num

/-- C2 counterexample: the normalizer does not treat a comma as a decimal
separator — it deletes commas.  The two renderings of the same quantity,
European "1.234,56" and US "1,234.56", normalize to the different values
1.23456 and 1234.56, and the lone-comma token "22,50" normalizes to 2250
rather than 22.5, so the claim is false as stated. -/
theorem c2_comma_counterexample :
    normalizePrice "1.234,56" = some (123456 / 100000 : ℚ) ∧
    normalizePrice "1,234.56" = some (123456 / 100 : ℚ) ∧
    normalizePrice "22,50" = some (2250 : ℚ) ∧
    (123456 / 100000 : ℚ) ≠ 123456 / 100 ∧ (2250 : ℚ) ≠ 225 / 10 := by
  refine ⟨?_, ?_, ?_, by norm_num, by norm_num⟩ <;>
    (simp +decide [normalizePrice, normalizePriceChars, cleanedPrice,
      parseDecimal, digitsToNat]
     try norm_num)

/-- C2 amended: the normalizer deletes every character that is not a digit
or a dot — so a token's value is insensitive to its commas (they are
erased, not converted to a decimal point) — and a token with no digit or
dot at all yields no value, never an exception. -/
theorem c2_normalizer_drops_commas (l : List Char) :
    normalizePriceChars (l.filter (fun c => !(c == ','))) = normalizePriceChars l ∧
    ((∀ c ∈ l, isDigitOrDot c = false) → normalizePriceChars l = none) := by
  constructor
  · unfold normalizePriceChars
    rw [cleanedPrice_filter_ne_comma]
  · intro h
    unfold normalizePriceChars cleanedPrice
    have hnil : l.filter isDigitOrDot = [] := by
      rw [List.filter_eq_nil_iff]
      intro a ha
      simp [h a ha]
    simp [hnil]

/-- C2 witness: comma-insensitivity at "1,5" and the no-value outcome at
the non-numeric token "abc". -/
theorem c2_normalizer_drops_commas_witness :
    normalizePriceChars ("1,5".toList.filter (fun c => !(c == ','))) =
      normalizePriceChars "1,5".toList ∧
    normalizePriceChars "abc".toList = none :=
  ⟨(c2_normalizer_drops_commas "1,5".toList).1,
   (c2_normalizer_drops_commas "abc".toList).2 (by decide)⟩

/-- A generic 200 x 200 image element with a plain http source. -/
def bigImgElement : Element :=
  ⟨[("src", "http://example.com/photo.jpg"), ("width", "200"), ("height", "200")], ""⟩

/-- A document in which no selector matches at all, whose `img` elements
nevertheless include `bigImgElement`. -/
def noMatchSoup : Soup := ⟨fun _ => none, [bigImgElement], none, none, none, none⟩

/-- C3 counterexample: in a document where no primary image locator
matches, a generic `img` element with `width=200,height=200` and a sound
downloadable source is NOT accepted — the extractor returns no image,
because no fallback scan over generic image elements exists in the code. -/
theorem c3_no_fallback_counterexample :
    noMatchSoup.imgTags = [bigImgElement] ∧
    bigImgElement.getAttr "width" = some "200" ∧
    bigImgElement.getAttr "height" = some "200" ∧
    bigImgElement.getAttr "src" = some "http://example.com/photo.jpg" ∧
    extractImages (fun _ src => src) (fun u => some ⟨u, u⟩)
      noMatchSoup "http://example.com" = [] :=
  ⟨rfl, rfl, rfl, rfl, rfl⟩

/-- C3 amended: when no primary image locator matches, the extractor
returns no image at all; there is no scan of generic image elements —
the result does not depend on the document's `img` element list in any
way (so no keyword or dimension filtering of generic candidates ever
happens). -/
theorem c3_primary_locators_only (join : String → String → String)
    (dl : String → Option ImageInfo) (soup : Soup) (base : String) :
    ((∀ sel ∈ mainImgSelectors, soup.selectOne sel = none) →
      extractImages join dl soup base = []) ∧
    (∀ l : List Element,
      extractImages join dl
        ⟨soup.selectOne, l, soup.metaOgTitle, soup.metaOgDescription,
          soup.metaNameDescription, soup.titleTag⟩ base =
      extractImages join dl soup base) :=
  ⟨fun h => extractImagesAux_nil_of_none join dl soup base mainImgSelectors h,
   fun l => extractImagesAux_imgTags_irrelevant join dl soup base l mainImgSelectors⟩

/-- C3 witness: the no-match document again, with every download
succeeding. -/
theorem c3_primary_locators_only_witness :
    extractImages (fun _ src => src) (fun u => some ⟨u, u⟩)
      noMatchSoup "http://example.com" = [] ∧
    extractImages (fun _ src => src) (fun u => some ⟨u, u⟩)
      ⟨noMatchSoup.selectOne, [], noMatchSoup.metaOgTitle, noMatchSoup.metaOgDescription,
        noMatchSoup.metaNameDescription, noMatchSoup.titleTag⟩ "http://example.com" =
      extractImages (fun _ src => src) (fun u => some ⟨u, u⟩)
        noMatchSoup "http://example.com" :=
  ⟨(c3_primary_locators_only (fun _ src => src) (fun u => some ⟨u, u⟩)
      noMatchSoup "http://example.com").1 (fun _ _ => rfl),
   (c3_primary_locators_only (fun _ src => src) (fun u => some ⟨u, u⟩)
      noMatchSoup "http://example.com").2 []⟩

/-- C4 counterexample: an item whose quantity text "abc" fails to parse
makes quote generation abort with an error (`float` raises and the route
answers 500) — it is not treated as zero and generation does not
proceed. -/
theorem c4_unparsable_aborts_counterexample :
    generateQuote ⟨[⟨"Widget", some "abc", some "5", none⟩], none, none⟩ =
      QuoteOutcome.error ∧
    QuoteOutcome.error ≠ QuoteOutcome.ok (some ⟨0, 0, 0, 0⟩) := by
  refine ⟨?_, by simp⟩
  simp +decide [generateQuote, subtotalAux, itemQuantityVal, itemPriceVal,
    pyFloatStr, pyFloatChars, stripChars, parseDecimal]

/-- C4 amended: a numeric input (item quantity or price, discount, tax
rate) whose text fails to parse as a number makes the quote generation
abort with an error rather than defaulting to zero; for the discount and
tax-rate fields this applies whenever the items list is non-empty (with
no items, the totals block — and hence their parsing — is skipped). -/
theorem c4_unparsable_numeric_aborts (qd : QuoteData) :
    ((∃ it ∈ qd.items, itemLineTotal it = none) → generateQuote qd = QuoteOutcome.error) ∧
    (qd.items ≠ [] → discountVal qd = none → generateQuote qd = QuoteOutcome.error) ∧
    (qd.items ≠ [] → taxRateVal qd = none → generateQuote qd = QuoteOutcome.error) := by
  refine ⟨?_, ?_, ?_⟩
  · intro hbad
    have hne : qd.items ≠ [] := by
      rintro hnil
      rw [hnil] at hbad
      simp at hbad
    have hie : qd.items.isEmpty = false := by
      cases h : qd.items with
      | nil => exact absurd h hne
      | cons a l => rfl
    simp only [generateQuote, hie, Bool.false_eq_true, if_false,
      subtotalAux_none_of_bad qd.items hbad 0]
  · intro hne hd
    have hie : qd.items.isEmpty = false := by
      cases h : qd.items with
      | nil => exact absurd h hne
      | cons a l => rfl
    simp only [generateQuote, hie, Bool.false_eq_true, if_false, hd]
    cases hsub : subtotalAux 0 qd.items with
    | none => rfl
    | some s =>
      cases taxRateVal qd <;> rfl
  · intro hne ht
    have hie : qd.items.isEmpty = false := by
      cases h : qd.items with
      | nil => exact absurd h hne
      | cons a l => rfl
    simp only [generateQuote, hie, Bool.false_eq_true, if_false, ht]
    cases hsub : subtotalAux 0 qd.items with
    | none => rfl
    | some s =>
      cases discountVal qd <;> rfl

/-- C4 witness: unparsable quantity, discount and tax-rate fields each
abort a one-item quote. -/
theorem c4_unparsable_numeric_aborts_witness :
    generateQuote ⟨[⟨"W", some "abc", some "5", none⟩], none, none⟩ =
      QuoteOutcome.error ∧
    generateQuote ⟨[⟨"W", none, some "5", none⟩], some "oops", none⟩ =
      QuoteOutcome.error ∧
    generateQuote ⟨[⟨"W", none, some "5", none⟩], none, some "oops"⟩ =
      QuoteOutcome.error :=
  ⟨(c4_unparsable_numeric_aborts ⟨[⟨"W", some "abc", some "5", none⟩], none, none⟩).1
      ⟨⟨"W", some "abc", some "5", none⟩, by simp, by decide⟩,
   (c4_unparsable_numeric_aborts ⟨[⟨"W", none, some "5", none⟩], some "oops", none⟩).2.1
      (by simp) (by decide),
   (c4_unparsable_numeric_aborts ⟨[⟨"W", none, some "5", none⟩], none, some "oops"⟩).2.2
      (by simp) (by decide)⟩

/-- C5: the price cascade stops at the first selector that both matches
an element and whose candidate text normalizes; a selector that does not
match, or that matches an element whose text does not normalize, is
skipped and the cascade continues with the remaining selectors. -/
theorem c5_price_cascade_first_valid (lookup : String → Option Element)
    (sel : String) (rest : List String) :
    (lookup sel = none →
      priceCascade lookup (sel :: rest) = priceCascade lookup rest) ∧
    (∀ el, lookup sel = some el → normalizePrice (elementPriceStr el) = none →
      priceCascade lookup (sel :: rest) = priceCascade lookup rest) ∧
    (∀ el p, lookup sel = some el → normalizePrice (elementPriceStr el) = some p →
      priceCascade lookup (sel :: rest) = some p) := by
  refine ⟨?_, ?_, ?_⟩
  · intro h
    simp only [priceCascade, h]
  · intro el h hn
    simp only [priceCascade, h, hn]
  · intro el p h hp
    simp only [priceCascade, h, hp]

/-- C5 witness: a first selector matching an element whose text "N/A"
does not normalize is skipped in favour of the rest of the cascade. -/
theorem c5_price_cascade_first_valid_witness :
    priceCascade (fun s => if s = "a" then some ⟨[], "N/A"⟩ else none) ["a", "b"] =
      priceCascade (fun s => if s = "a" then some ⟨[], "N/A"⟩ else none) ["b"] :=
  (c5_price_cascade_first_valid (fun s => if s = "a" then some ⟨[], "N/A"⟩ else none)
    "a" ["b"]).2.1 ⟨[], "N/A"⟩ (by simp) (by decide)

/-- C6: a (found) title containing the anti-bot marker suppresses product
detection even when a valid price is present; and the extractor returns a
`ProductDetails` (title and price both populated) exactly when the title
cascade finds a non-empty, marker-free title and the price cascade finds
a price.  ("A title is present" is read as the cascade yielding a
non-empty text, the spec's own notion of a rule yielding a value; the
code's Python truthiness test agrees with this reading.) -/
theorem c6_product_detection_rule (soup : Soup) :
    (∀ t, titleCascade soup.selectOne titleSelectors = some t →
      containsRobot t = true → extractProductDetails soup = none) ∧
    (∀ t p, extractProductDetails soup = some ⟨t, p⟩ ↔
      (titleCascade soup.selectOne titleSelectors = some t ∧ t ≠ "" ∧
       containsRobot t = false ∧
       priceCascade soup.selectOne priceSelectors = some p)) := by
  have hdef : extractProductDetails soup =
      (match titleCascade soup.selectOne titleSelectors with
       | none => none
       | some t =>
         if t ≠ "" && containsRobot t then none
         else
           match priceCascade soup.selectOne priceSelectors with
           | some p => if t ≠ "" then some ⟨t, p⟩ else none
           | none => none) := rfl
  rw [hdef]
  cases ht : titleCascade soup.selectOne titleSelectors with
  | none =>
    refine ⟨?_, ?_⟩
    · intro t htt
      exact absurd htt (by simp)
    · intro t p
      simp
  | some t0 =>
    refine ⟨?_, ?_⟩
    · intro t htt hr
      injection htt with he
      subst he
      by_cases h0 : t0 = ""
      · subst h0
        exact absurd hr (by decide)
      · simp [h0, hr]
    · intro t p
      constructor
      · intro hlhs
        by_cases h0 : t0 = ""
        · exfalso
          subst h0
          cases hpc : priceCascade soup.selectOne priceSelectors with
          | none => rw [hpc] at hlhs; simp at hlhs
          | some p0 => rw [hpc] at hlhs; simp at hlhs
        · cases hr : containsRobot t0 with
          | true => simp [h0, hr] at hlhs
          | false =>
            cases hpc : priceCascade soup.selectOne priceSelectors with
            | none => simp [h0, hr, hpc] at hlhs
            | some p0 =>
              simp [h0, hr, hpc] at hlhs
              obtain ⟨h1, h2⟩ := hlhs
              subst h1
              subst h2
              exact ⟨rfl, h0, hr, rfl⟩
      · rintro ⟨h1, hne, hrf, hpc⟩
        injection h1 with h1
        subst h1
        simp [hne, hrf, hpc]

/-- A document bearing a product: a generic `h1` title and an Amazon-style
price element. -/
def productSoup : Soup :=
  ⟨fun s => if s = "h1" then some ⟨[], "Super Widget"⟩
    else if s = "span.a-offscreen" then some ⟨[], "$19.99"⟩ else none,
   [], none, none, none, none⟩

/-- An anti-bot challenge document: the title mentions a robot check while
a valid price element is still present. -/
def robotSoup : Soup :=
  ⟨fun s => if s = "h1" then some ⟨[], "Are you a Robot?"⟩
    else if s = "span.a-offscreen" then some ⟨[], "$10.00"⟩ else none,
   [], none, none, none, none⟩

/-- C6 witness: the product document yields both fields populated; the
robot document is suppressed despite its valid price. -/
theorem c6_product_detection_rule_witness :
    extractProductDetails productSoup = some ⟨"Super Widget", 1999 / 100⟩ ∧
    extractProductDetails robotSoup = none :=
  ⟨((c6_product_detection_rule productSoup).2 "Super Widget" (1999 / 100)).mpr
    ⟨by decide, by decide, by decide, by
      simp +decide [priceCascade, priceSelectors, normalizePrice, normalizePriceChars,
        cleanedPrice, parseDecimal, digitsToNat, elementPriceStr, Element.getAttr,
        productSoup]
      norm_num⟩,
   (c6_product_detection_rule robotSoup).1 "Are you a Robot?" (by decide) (by decide)⟩

/-- C7 counterexample: the URL normalization does not strip query or
fragment — "example.com/p?a=1#frag" is fetched as
"http://example.com/p?a=1#frag", query and fragment intact, not as
"http://example.com/p". -/
theorem c7_query_kept_counterexample :
    normalizeUrl "example.com/p?a=1#frag" = "http://example.com/p?a=1#frag" ∧
    ("http://example.com/p?a=1#frag" : String) ≠ "http://example.com/p" := by
  refine ⟨?_, by decide⟩
  simp +decide [normalizeUrl]

/-- C7 amended: before the canonical fetch the route prepends the default
scheme exactly when the URL starts with neither "http://" nor "https://",
and leaves the URL otherwise untouched — in particular every query (`?`)
and fragment (`#`) character is retained; the orchestrator consults the
transport only at the fixed bounded timeout of 60 seconds. -/
theorem c7_url_normalization (url : String) (fetch fetch2 : String → Nat → FetchResult)
    (join : String → String → String) (dl : String → Option ImageInfo)
    (key : Option String) :
    (¬(pyStartsWith url "http://" = true ∨ pyStartsWith url "https://" = true) →
      normalizeUrl url = "http://" ++ url) ∧
    ((pyStartsWith url "http://" = true ∨ pyStartsWith url "https://" = true) →
      normalizeUrl url = url) ∧
    (normalizeUrl url).toList.count '?' = url.toList.count '?' ∧
    (normalizeUrl url).toList.count '#' = url.toList.count '#' ∧
    ((∀ u, fetch u 60 = fetch2 u 60) →
      extractWebData fetch join dl key url = extractWebData fetch2 join dl key url) ∧
    extractDataRoute fetch join dl key (some url) =
      (if url = "" then none
       else some (extractWebData fetch join dl key (normalizeUrl url))) := by
  have happ : ("http://" ++ url).toList = "http://".toList ++ url.toList := rfl
  refine ⟨?_, ?_, ?_, ?_, ?_, rfl⟩
  · intro h
    have hb : (pyStartsWith url "http://" || pyStartsWith url "https://") = false := by
      cases h1 : pyStartsWith url "http://" with
      | true => exact absurd (Or.inl h1) h
      | false =>
        cases h2 : pyStartsWith url "https://" with
        | true => exact absurd (Or.inr h2) h
        | false => rfl
    simp [normalizeUrl, hb]
  · intro h
    have hb : (pyStartsWith url "http://" || pyStartsWith url "https://") = true := by
      rcases h with h1 | h2
      · simp [h1]
      · simp [h2]
    simp [normalizeUrl, hb]
  · unfold normalizeUrl
    cases hb : (pyStartsWith url "http://" || pyStartsWith url "https://") with
    | true => simp
    | false => simp [happ, List.count_append]
  · unfold normalizeUrl
    cases hb : (pyStartsWith url "http://" || pyStartsWith url "https://") with
    | true => simp
    | false => simp [happ, List.count_append]
  · intro h
    cases key with
    | none => rfl
    | some k => simp only [extractWebData, h url]

/-- C7 witness: a scheme-less URL gets the default scheme, and swapping
the transport for one that agrees at timeout 60 leaves the outcome
unchanged. -/
theorem c7_url_normalization_witness :
    normalizeUrl "example.com" = "http://" ++ "example.com" ∧
    extractWebData (fun _ _ => FetchResult.netErr "t") (fun _ s => s) (fun _ => none)
        (some "k") "example.com" =
      extractWebData (fun _ _ => FetchResult.netErr "t") (fun _ s => s) (fun _ => none)
        (some "k") "example.com" := by
  have h := c7_url_normalization "example.com" (fun _ _ => FetchResult.netErr "t")
    (fun _ _ => FetchResult.netErr "t") (fun _ s => s) (fun _ => none) (some "k")
  exact ⟨h.1 (by decide), h.2.2.2.2.1 (fun u => rfl)⟩

/-- C8: once the transport fetch-and-parse succeeds the orchestrator
always returns a success payload — absence of a product never fails the
operation, it only leaves `product_details` as `none` while the generic
title and description come from the meta-tag fallbacks (the `og:` meta
content when present); any transport failure instead yields the
network-classified error payload. -/
theorem c8_orchestrator_status (fetch : String → Nat → FetchResult)
    (join : String → String → String) (dl : String → Option ImageInfo)
    (key : String) (url : String) :
    (∀ soup, fetch url 60 = FetchResult.ok soup →
      extractWebData fetch join dl (some key) url =
        ExtractOutcome.ok url (extractTitleMeta soup) (extractDescription soup)
          (extractImages join dl soup url) (extractProductDetails soup)) ∧
    (∀ soup, fetch url 60 = FetchResult.ok soup → extractProductDetails soup = none →
      extractWebData fetch join dl (some key) url =
        ExtractOutcome.ok url (extractTitleMeta soup) (extractDescription soup)
          (extractImages join dl soup url) none) ∧
    (∀ soup el c, soup.metaOgTitle = some el → el.getAttr "content" = some c →
      extractTitleMeta soup = String.mk (stripChars c.toList)) ∧
    (∀ soup el c, soup.metaOgDescription = some el → el.getAttr "content" = some c →
      extractDescription soup = String.mk (stripChars c.toList)) ∧
    (∀ e, fetch url 60 = FetchResult.netErr e →
      extractWebData fetch join dl (some key) url =
        ExtractOutcome.err ("Network error or failed request to ScraperAPI: " ++ e)) := by
  refine ⟨?_, ?_, ?_, ?_, ?_⟩
  · intro soup hf
    simp only [extractWebData, hf]
  · intro soup hf hpd
    simp only [extractWebData, hf, hpd]
  · intro soup el c hog hc
    simp only [extractTitleMeta, hog, hc, Option.getD_some]
  · intro soup el c hog hc
    simp only [extractDescription, hog, hc, Option.getD_some]
  · intro e hf
    simp only [extractWebData, hf]

/-- A document with open-graph title and description meta tags and no
product markup at all. -/
def ogOnlySoup : Soup :=
  ⟨fun _ => none, [], some ⟨[("content", "My Page")], ""⟩,
   some ⟨[("content", "A nice page")], ""⟩, none, none⟩

/-- C8 witness: a fetched og-tagged document with no product yields a
success payload with `product_details = none` and the og-derived texts;
a transport timeout yields the network-classified error. -/
theorem c8_orchestrator_status_witness :
    extractWebData (fun _ _ => FetchResult.ok ogOnlySoup) (fun _ s => s)
        (fun _ => none) (some "k") "http://u" =
      ExtractOutcome.ok "http://u" "My Page" "A nice page" [] none ∧
    extractWebData (fun _ _ => FetchResult.netErr "timeout") (fun _ s => s)
        (fun _ => none) (some "k") "http://u" =
      ExtractOutcome.err ("Network error or failed request to ScraperAPI: " ++ "timeout") := by
  constructor
  · have h := (c8_orchestrator_status (fun _ _ => FetchResult.ok ogOnlySoup)
      (fun _ s => s) (fun _ => none) "k" "http://u").2.1 ogOnlySoup rfl (by decide)
    rw [h]
    rfl
  · exact (c8_orchestrator_status (fun _ _ => FetchResult.netErr "timeout")
      (fun _ s => s) (fun _ => none) "k" "http://u").2.2.2.2 "timeout" rfl

/-- C9: the image policy produces at most one image; a network failure
while downloading, or a filesystem failure while persisting, is absorbed
into "no image"; and even when every download fails the orchestrator
still returns its success payload (with an empty image list) — the
extraction is never aborted by the image sub-step. -/
theorem c9_image_policy (join : String → String → String)
    (dl : String → Option ImageInfo) (soup : Soup) (base : String)
    (get : String → Except String ImgResponse)
    (persist : String → Except String ImageInfo) (u : String) :
    (extractImages join dl soup base).length ≤ 1 ∧
    (∀ e, get u = Except.error e → downloadImage get persist u = none) ∧
    (∀ resp e, get u = Except.ok resp → persist u = Except.error e →
      downloadImage get persist u = none) ∧
    ((∀ v, dl v = none) →
      ∀ (fetch : String → Nat → FetchResult) (key url : String) (soup2 : Soup),
        fetch url 60 = FetchResult.ok soup2 →
        extractWebData fetch join dl (some key) url =
          ExtractOutcome.ok url (extractTitleMeta soup2) (extractDescription soup2)
            [] (extractProductDetails soup2)) := by
  refine ⟨extractImagesAux_length_le_one join dl soup base mainImgSelectors, ?_, ?_, ?_⟩
  · intro e hget
    simp only [downloadImage, hget]
  · intro resp e hget hpersist
    cases hsub : hasSubstr resp.contentType.toList "image".toList with
    | true =>
      simp only [downloadImage, hget, hsub, hpersist]
      simp
    | false =>
      simp only [downloadImage, hget, hsub]
      simp
  · intro hdl fetch key url soup2 hf
    simp only [extractWebData, hf,
      extractImages_nil_of_dl_none join dl soup2 url hdl]

/-- C9 witness: the length bound on a concrete no-match document, a
timed-out download, a failed persist, and a full extraction whose every
download fails yet still succeeds. -/
theorem c9_image_policy_witness :
    (extractImages (fun _ s => s) (fun _ => none)
        ⟨fun _ => none, [], none, none, none, none⟩ "b").length ≤ 1 ∧
    downloadImage (fun _ => Except.error "timeout") (fun u2 => Except.ok ⟨u2, u2⟩)
      "http://x/i.jpg" = none ∧
    downloadImage (fun _ => Except.ok ⟨"image/jpeg"⟩) (fun _ => Except.error "disk full")
      "http://x/i.jpg" = none ∧
    extractWebData (fun _ _ => FetchResult.ok ⟨fun _ => none, [], none, none, none, none⟩)
        (fun _ s => s) (fun _ => none) (some "k") "http://u" =
      ExtractOutcome.ok "http://u"
        (extractTitleMeta ⟨fun _ => none, [], none, none, none, none⟩)
        (extractDescription ⟨fun _ => none, [], none, none, none, none⟩)
        [] (extractProductDetails ⟨fun _ => none, [], none, none, none, none⟩) := by
  have h1 := c9_image_policy (fun _ s => s) (fun _ => none)
    ⟨fun _ => none, [], none, none, none, none⟩ "b"
    (fun _ => Except.error "timeout") (fun u2 => Except.ok ⟨u2, u2⟩) "http://x/i.jpg"
  have h2 := c9_image_policy (fun _ s => s) (fun _ => none)
    ⟨fun _ => none, [], none, none, none, none⟩ "b"
    (fun _ => Except.ok ⟨"image/jpeg"⟩) (fun _ => Except.error "disk full") "http://x/i.jpg"
  exact ⟨h1.1, h1.2.1 "timeout" rfl, h2.2.2.1 ⟨"image/jpeg"⟩ "disk full" rfl rfl,
    h1.2.2.2 (fun v => rfl) (fun _ _ => FetchResult.ok ⟨fun _ => none, [], none, none, none, none⟩)
      "k" "http://u" ⟨fun _ => none, [], none, none, none, none⟩ rfl⟩

/-- C10: when a numeric field's key is absent the document builder
substitutes non-uniform defaults — quantity 1, unit price 0, discount 0,
and tax rate 7 percent (not zero).  The closed instance shows a one-item
quote with only a price given: subtotal 10, no discount, and 7% tax
applied by default (tax 0.70, grand total 10.70). -/
theorem c10_default_values :
    (∀ (d : String) (pr img : Option String),
      itemQuantityVal ⟨d, none, pr, img⟩ = some 1) ∧
    (∀ (d : String) (q img : Option String),
      itemPriceVal ⟨d, q, none, img⟩ = some 0) ∧
    (∀ (its : List QuoteItemData) (t : Option String),
      discountVal ⟨its, none, t⟩ = some 0) ∧
    (∀ (its : List QuoteItemData) (dsc : Option String),
      taxRateVal ⟨its, dsc, none⟩ = some 7) ∧
    generateQuote ⟨[⟨"Widget", none, some "10", none⟩], none, none⟩ =
      QuoteOutcome.ok (some ⟨10, 10, 7 / 10, 107 / 10⟩) := by
  refine ⟨fun d pr img => rfl, fun d q img => rfl, fun its t => rfl,
    fun its dsc => rfl, ?_⟩
  simp +decide [generateQuote, subtotalAux, itemQuantityVal, itemPriceVal,
    discountVal, taxRateVal, pyFloatStr, pyFloatChars, stripChars, parseDecimal,
    digitsToNat]
  try norm_num
